import Mathlib

/-!
# Verification of the keycloak-proxy OAuth flow handlers

A shallow embedding of the handlers in handlers.go of the
crossgovernmentservices/keycloak-proxy repository, together with theorems
settling the behavioural claims about them.

Modelling conventions:
* Each gin handler becomes a pure function from a configuration record, an
  environment record (the outcomes of the collaborator calls the handler
  makes: OAuth client construction, code exchange, token parsing and
  verification, encryption, the HTTP transport) and the request data, to a
  result record collecting every observable effect: the HTTP status, the
  redirect target, the cookies issued, the revocation request sent, and the
  log messages emitted.
* Go instants and durations are modelled as integers counting nanoseconds,
  exactly as time.Time (since the epoch) and time.Duration are int64
  nanosecond counts.
* Fallible Go calls returning (T, error) are modelled as Except String T.
* base64.StdEncoding.DecodeString and url.QueryEscape are Go standard
  library functions the handlers call on data the claims are about, so they
  are embedded concretely (faithfully to the Go implementation, byte for
  byte on UTF-8 encoded input).
-/

namespace KeycloakProxy

/-! ## Time -/

/-- One hour in nanoseconds: Go time.Hour (time.Duration counts nanoseconds). -/
def nsPerHour : Int := 3600 * 1000000000

/-! ## Tokens and identities -/

/-- A parsed JWT (jose.JWT). Only its compact serialization is observable in
the handlers, so the model keeps just that. -/
structure JWT where
  raw : String
  deriving DecidableEq, Repr

/-- token.Encode() returns the compact serialization of the JWT. -/
def JWT.encode (t : JWT) : String := t.raw

/-- The identity claims extracted by parseToken: the fields the handlers
read (identity.Email, identity.ExpiresAt). expiresAt is in nanoseconds. -/
structure Identity where
  email : String
  expiresAt : Int
  deriving DecidableEq, Repr

/-- oauth2.TokenResponse as returned by exchangeAuthenticationCode and
client.UserCredsToken: the fields the handlers read. -/
structure TokenResponse where
  accessToken : String
  idToken : String
  refreshToken : String
  expires : Int
  scope : String
  deriving DecidableEq, Repr

/-- userContext as produced by getIdentity (not in handlers.go): the fields
the handlers read. expired models userContext.isExpired(). -/
structure UserContext where
  token : JWT
  email : String
  expired : Bool
  deriving DecidableEq, Repr

/-! ## Configuration

The fields of r.config that the handlers read. -/

structure Config where
  skipTokenVerification : Bool
  enableRefreshTokens : Bool
  enableLoginHandler : Bool
  encryptionKey : String
  clientID : String
  clientSecret : String
  revocationEndpoint : String
  scopes : List String
  deriving DecidableEq, Repr

/-! ## Go standard library: base64.StdEncoding.DecodeString

The callback handler base64-decodes the state query parameter.
base64.StdEncoding uses the standard alphabet A-Z a-z 0-9 + / with mandatory
= padding; DecodeString ignores carriage returns and newlines and rejects
any other character outside the alphabet, input whose length (after that
filtering) is not a multiple of four, and misplaced padding. -/

/-- The value of a standard-alphabet base64 digit, none for any other
character (including the padding character). -/
def base64Index (c : Char) : Option Nat :=
  if 65 ≤ c.toNat ∧ c.toNat ≤ 90 then some (c.toNat - 65)
  else if 97 ≤ c.toNat ∧ c.toNat ≤ 122 then some (c.toNat - 97 + 26)
  else if 48 ≤ c.toNat ∧ c.toNat ≤ 57 then some (c.toNat - 48 + 52)
  else if c = '+' then some 62
  else if c = '/' then some 63
  else none

/-- Decode a list of base64 characters four at a time; a padded quantum is
accepted only as the final quantum. Produces the decoded bytes. -/
def decodeQuanta : List Char → Option (List Nat)
  | [] => some []
  | a :: b :: c :: d :: rest =>
    match base64Index a, base64Index b with
    | some x, some y =>
      if c = '=' then
        if d = '=' ∧ rest = [] then some [x * 4 + y / 16] else none
      else
        match base64Index c with
        | some z =>
          if d = '=' then
            if rest = [] then some [x * 4 + y / 16, y % 16 * 16 + z / 4] else none
          else
            match base64Index d with
            | some w =>
              match decodeQuanta rest with
              | some bs =>
                some ((x * 4 + y / 16) :: (y % 16 * 16 + z / 4) :: (z % 4 * 64 + w) :: bs)
              | none => none
            | none => none
        | none => none
    | _, _ => none
  | _ => none

/-- base64.StdEncoding.DecodeString: drop carriage returns and newlines,
then decode strictly in four-character quanta. -/
def decodeBase64 (s : String) : Option (List Nat) :=
  decodeQuanta (s.data.filter (fun c => c ≠ '\r' ∧ c ≠ '\n'))

/-- Go string(bytes): the decoded bytes viewed as a string (each byte is
below 256, hence a valid code point; on ASCII data this is exactly Go). -/
def stringOfBytes (bs : List Nat) : String := String.mk (bs.map Char.ofNat)

/-! ## Go standard library: url.QueryEscape

logoutHandler query-escapes the client id and secret before putting them in
the Basic auth header. QueryEscape works on the UTF-8 bytes of the string:
alphanumeric bytes and - _ . ~ stand for themselves, a space becomes +, and
every other byte becomes %XX with uppercase hexadecimal digits. -/

/-- Uppercase hexadecimal digit of a value below 16. -/
def hexDigit (n : Nat) : Char :=
  if n < 10 then Char.ofNat (48 + n) else Char.ofNat (65 + n - 10)

/-- Escape one byte the way url.QueryEscape does. -/
def queryEscapeByte (b : Nat) : List Char :=
  if (65 ≤ b ∧ b ≤ 90) ∨ (97 ≤ b ∧ b ≤ 122) ∨ (48 ≤ b ∧ b ≤ 57)
      ∨ b = 45 ∨ b = 95 ∨ b = 46 ∨ b = 126 then
    [Char.ofNat b]
  else if b = 32 then ['+']
  else ['%', hexDigit (b / 16), hexDigit (b % 16)]

/-- url.QueryEscape over the UTF-8 bytes of the string. -/
def queryEscape (s : String) : String :=
  String.mk (List.flatten (s.toUTF8.toList.map (fun b => queryEscapeByte b.toNat)))

/-! ## Small helpers from the repository -/

/-- utils.go defaultTo: the first string when it is non-empty, else the
second. -/
def defaultTo (v d : String) : String := if v ≠ "" then v else d

/-- utils.go containedIn: membership of a string in a list. -/
def containedIn (v : String) (l : List String) : Bool := l.contains v

/-- A cookie issued by the handler: its value and its TTL (the duration
passed to the drop helper, in nanoseconds). -/
structure Cookie where
  value : String
  ttl : Int
  deriving DecidableEq, Repr

/-! ## The state decode step of the callback handler

handlers.go lines 200-212: the post-login redirect target starts as "/";
a non-empty state query parameter is base64-decoded; a decode failure is
logged as a warning and the "/" default kept; a successful decode replaces
the target with the decoded bytes. -/

/-- Warning message logged when the state parameter fails to decode. -/
def stateDecodeWarning : String := "unable to decode the state parameter"

/-- The state decode step: yields the redirect target and the warnings
logged. -/
def decodeState (stateParam : String) : String × List String :=
  if stateParam = "" then ("/", [])
  else
    match decodeBase64 stateParam with
    | none => ("/", [stateDecodeWarning])
    | some bs => (stringOfBytes bs, [])

/-- Modelled from the spec: redirectToURL is not in handlers.go; per the
spec's external-interface table the oauth redirects are HTTP 302
("GET /oauth/callback?code&state → 302 to state-decoded URL",
"GET /oauth/logout?redirect=<url> → 200 or 302"). -/
def redirectStatus : Nat := 302

/-! ## GET /oauth/authorize -/

/-- The collaborator outcomes oauthAuthorizationHandler depends on. -/
structure AuthorizeEnv where
  /-- r.getOAuthClient: ok or an error. -/
  getOAuthClient : Except String Unit
  /-- client.AuthCodeURL state accessType: the provider authorization URL. -/
  authCodeURL : String → String → String
  /-- r.config.hasCustomSignInPage(). -/
  hasCustomSignInPage : Bool

/-- Observable outcome of the authorization handler. -/
structure AuthorizeResult where
  status : Nat
  redirect : Option String := none
  /-- whether r.getOAuthClient was ever called and returned a client. -/
  clientConstructed : Bool := false
  deriving DecidableEq, Repr

/-- handlers.go oauthAuthorizationHandler: reject with 406 when token
verification is skipped; build the oauth client (500 on failure); compute
the provider auth URL with access type offline iff "offline" is among the
configured scopes; render the custom sign-in page with 200 when one is
configured, else redirect to the auth URL. -/
def oauthAuthorizationHandler (cfg : Config) (env : AuthorizeEnv)
    (stateParam : String) : AuthorizeResult :=
  if cfg.skipTokenVerification then { status := 406 }
  else
    match env.getOAuthClient with
    | .error _ => { status := 500 }
    | .ok _ =>
      let accessType := if containedIn "offline" cfg.scopes then "offline" else ""
      let authURL := env.authCodeURL stateParam accessType
      if env.hasCustomSignInPage then
        { status := 200, clientConstructed := true }
      else
        { status := redirectStatus, redirect := some authURL, clientConstructed := true }

/-! ## GET /oauth/callback -/

/-- The collaborator outcomes oauthCallbackHandler depends on. -/
structure CallbackEnv where
  /-- r.getOAuthClient: ok or an error. -/
  getOAuthClient : Except String Unit
  /-- exchangeAuthenticationCode client code. -/
  exchangeAuthenticationCode : String → Except String TokenResponse
  /-- parseToken: raw token string to (jose.JWT, identity). -/
  parseToken : String → Except String (JWT × Identity)
  /-- verifyToken r.client token. -/
  verifyToken : JWT → Except String Unit
  /-- encodeText plaintext key: AES-GCM encryption. -/
  encodeText : String → String → Except String String
  /-- r.useStore(). -/
  useStore : Bool
  /-- r.StoreRefreshToken token encrypted. -/
  storeRefreshToken : Except String Unit
  /-- r.getAccessCookieExpiration token refreshToken (nanoseconds). -/
  getAccessCookieExpiration : JWT → String → Int
  /-- time.Now() in nanoseconds. -/
  now : Int

/-- The request data oauthCallbackHandler reads: the code and state query
parameters (url.Values.Get returns "" when a parameter is absent). -/
structure CallbackRequest where
  code : String
  state : String
  deriving DecidableEq, Repr

/-- Observable outcome of the callback handler. -/
structure CallbackResult where
  status : Nat
  redirect : Option String := none
  accessCookie : Option Cookie := none
  refreshCookie : Option Cookie := none
  clientConstructed : Bool := false
  /-- whether exchangeAuthenticationCode was called. -/
  exchanged : Bool := false
  /-- the token whose serialization went into the access cookie. -/
  sessionToken : Option JWT := none
  /-- the identity the session was issued for. -/
  sessionIdentity : Option Identity := none
  warnings : List String := []
  deriving DecidableEq, Repr

/-- Warning message logged when the access token fails to parse. -/
def accessParseWarning : String := "unable to parse the access token, using id token only"

/-- Warning message logged when saving the refresh token to the store fails. -/
def storeSaveWarning : String := "failed to save the refresh token in the store"

/-- handlers.go oauthCallbackHandler, transcribed step for step:
406 when token verification is skipped; 400 when the code query parameter
is empty; 500 when the oauth client cannot be built; 403 (accessForbidden)
when the exchange, the id-token parse, or the id-token verification fails;
then the access token is parsed, replacing the id token and identity on
success and logging a warning on failure; then cookies are issued (with the
refresh branch when refresh tokens are enabled and one was returned); and
finally the handler redirects to the base64-decoded state (default "/"). -/
def oauthCallbackHandler (cfg : Config) (env : CallbackEnv)
    (req : CallbackRequest) : CallbackResult :=
  if cfg.skipTokenVerification then { status := 406 }
  else if req.code = "" then { status := 400 }
  else
    match env.getOAuthClient with
    | .error _ => { status := 500 }
    | .ok _ =>
      match env.exchangeAuthenticationCode req.code with
      | .error _ => { status := 403, clientConstructed := true, exchanged := true }
      | .ok resp =>
        match env.parseToken resp.idToken with
        | .error _ => { status := 403, clientConstructed := true, exchanged := true }
        | .ok (idToken, idIdentity) =>
          match env.verifyToken idToken with
          | .error _ => { status := 403, clientConstructed := true, exchanged := true }
          | .ok _ =>
            let (token, identity, warns) :=
              match env.parseToken resp.accessToken with
              | .error _ => (idToken, idIdentity, [accessParseWarning])
              | .ok (access, id) => (access, id, ([] : List String))
            let (stateTarget, stateWarns) := decodeState req.state
            if cfg.enableRefreshTokens ∧ resp.refreshToken ≠ "" then
              match env.encodeText resp.refreshToken cfg.encryptionKey with
              | .error _ =>
                { status := 500, clientConstructed := true, exchanged := true,
                  warnings := warns }
              | .ok encrypted =>
                let accessCookie : Cookie :=
                  { value := token.encode,
                    ttl := env.getAccessCookieExpiration token resp.refreshToken }
                let (refreshCookie, warns2) :=
                  if env.useStore then
                    (none,
                      match env.storeRefreshToken with
                      | .error _ => warns ++ [storeSaveWarning]
                      | .ok _ => warns)
                  else
                    match env.parseToken resp.refreshToken with
                    | .error _ =>
                      (some { value := encrypted, ttl := 240 * nsPerHour }, warns)
                    | .ok (_, ident) =>
                      (some { value := encrypted, ttl := ident.expiresAt - env.now }, warns)
                { status := redirectStatus, redirect := some stateTarget,
                  accessCookie := some accessCookie, refreshCookie := refreshCookie,
                  clientConstructed := true, exchanged := true,
                  sessionToken := some token, sessionIdentity := some identity,
                  warnings := warns2 ++ stateWarns }
            else
              { status := redirectStatus, redirect := some stateTarget,
                accessCookie := some { value := token.encode,
                                       ttl := identity.expiresAt - env.now },
                clientConstructed := true, exchanged := true,
                sessionToken := some token, sessionIdentity := some identity,
                warnings := warns ++ stateWarns }

/-! ## POST /oauth/login -/

/-- oauth2.ErrorInvalidGrant from go-oidc: loginHandler compares the error
message prefix against it. -/
def errorInvalidGrant : String := "invalid_grant"

/-- The collaborator outcomes loginHandler depends on. -/
structure LoginEnv where
  /-- r.client.OAuthClient(). -/
  oauthClient : Except String Unit
  /-- client.UserCredsToken username password; the error carries
  err.Error(). -/
  userCredsToken : String → String → Except String TokenResponse
  /-- parseToken. -/
  parseToken : String → Except String (JWT × Identity)
  /-- time.Now() in nanoseconds. -/
  now : Int

/-- The form values loginHandler reads (PostFormValue returns "" when a
field is absent). -/
structure LoginRequest where
  username : String
  password : String
  deriving DecidableEq, Repr

/-- The JSON body written on a successful login: tokenResponse with the
id, access and refresh tokens, the expiry and the scope — exactly the
fields copied from the oauth2.TokenResponse. -/
structure LoginResult where
  status : Nat
  jsonBody : Option TokenResponse := none
  accessCookie : Option Cookie := none
  deriving DecidableEq, Repr

/-- handlers.go loginHandler: 501 when the login handler is disabled; 400
when username or password is missing; 500 when the oauth client cannot be
built; on a UserCredsToken error, 401 when the message starts with
invalid_grant and 500 otherwise; 501 when the returned access token does
not parse; else the access cookie is dropped with TTL expiry-now and the
token pair is written as JSON with status 200. -/
def loginHandler (cfg : Config) (env : LoginEnv) (req : LoginRequest) : LoginResult :=
  if ¬ cfg.enableLoginHandler then { status := 501 }
  else if req.username = "" ∨ req.password = "" then { status := 400 }
  else
    match env.oauthClient with
    | .error _ => { status := 500 }
    | .ok _ =>
      match env.userCredsToken req.username req.password with
      | .error e =>
        if errorInvalidGrant.isPrefixOf e then { status := 401 } else { status := 500 }
      | .ok token =>
        match env.parseToken token.accessToken with
        | .error _ => { status := 501 }
        | .ok (_, identity) =>
          { status := 200,
            jsonBody := some token,
            accessCookie := some { value := token.accessToken,
                                   ttl := identity.expiresAt - env.now } }

/-! ## GET /oauth/logout -/

/-- The revocation request logoutHandler builds: a POST to the revocation
URL with the escaped client credentials as HTTP Basic auth, content type
application/x-www-form-urlencoded, and body refresh_token=<token>. -/
structure RevocationRequest where
  url : String
  basicUser : String
  basicPass : String
  contentType : String
  body : String
  deriving DecidableEq, Repr

/-- The collaborator outcomes logoutHandler depends on. -/
structure LogoutEnv where
  /-- r.getIdentity req. -/
  getIdentity : Except String UserContext
  /-- r.useStore(). -/
  useStore : Bool
  /-- r.GetRefreshToken user.token (store variant). -/
  getStoreRefreshToken : Except String String
  /-- r.getRefreshTokenFromCookie req (cookie variant). -/
  getRefreshTokenFromCookie : Except String String
  /-- decodeText token r.config.EncryptionKey. -/
  decodeText : String → Except String String
  /-- r.idp.EndSessionEndpoint.String(). -/
  endSessionEndpoint : String
  /-- r.client.OAuthClient(). -/
  oauthClient : Except String Unit
  /-- whether http.NewRequest succeeds (it fails only on a malformed URL). -/
  newRequestOk : Bool
  /-- client.HttpClient().Do(request): transport error, or response status. -/
  doRequest : RevocationRequest → Except String Nat

/-- handlers.go retrieveRefreshToken: fetch the (encrypted) refresh token
from the store when one is in use, else from the cookie, then decrypt it. -/
def retrieveRefreshToken (env : LogoutEnv) : Except String String :=
  match (if env.useStore then env.getStoreRefreshToken else env.getRefreshTokenFromCookie) with
  | .error e => .error e
  | .ok token => env.decodeText token

/-- Observable outcome of the logout handler. -/
structure LogoutResult where
  status : Nat
  redirect : Option String := none
  cookiesCleared : Bool := false
  /-- whether a store delete goroutine was spawned. -/
  storeDeleteSpawned : Bool := false
  /-- the revocation request posted, when the transport was reached. -/
  revocationRequest : Option RevocationRequest := none
  errorsLogged : List String := []
  deriving DecidableEq, Repr

/-- Error message logged when the revocation POST fails in transport. -/
def revocationTransportError : String := "unable to post to revocation endpoint"

/-- Error message logged when the revocation endpoint answers with a status
other than 204 No Content. -/
def revocationBadStatusError : String := "invalid response from revocation endpoint"

/-- handlers.go logoutHandler: 400 when no identity can be extracted; the
identity token defaults to the user's token and is replaced by the refresh
token when one can be retrieved; all cookies are cleared; a store delete is
spawned when a store is in use; when a revocation URL is configured (the
RevocationEndpoint config value, defaulting to the idp end-session
endpoint) the handler builds the oauth client (500 on failure), constructs
the POST (500 on failure) and performs it — a transport error is logged and
the handler returns (gin then completes the response with the default
status 200 OK), a 204 is logged as success, any other status is logged as
an error; finally the handler 302-redirects to the redirect query
parameter when present, else answers 200. -/
def logoutHandler (cfg : Config) (env : LogoutEnv) (redirectParam : String) : LogoutResult :=
  match env.getIdentity with
  | .error _ => { status := 400 }
  | .ok user =>
    let identityToken :=
      match retrieveRefreshToken env with
      | .ok refresh => refresh
      | .error _ => user.token.encode
    let revocationURL := defaultTo cfg.revocationEndpoint env.endSessionEndpoint
    let base : LogoutResult :=
      { status := 200, cookiesCleared := true, storeDeleteSpawned := env.useStore }
    if revocationURL = "" then
      if redirectParam ≠ "" then
        { base with status := redirectStatus, redirect := some redirectParam }
      else base
    else
      match env.oauthClient with
      | .error _ => { base with status := 500 }
      | .ok _ =>
        if ¬ env.newRequestOk then { base with status := 500 }
        else
          let request : RevocationRequest :=
            { url := revocationURL,
              basicUser := queryEscape cfg.clientID,
              basicPass := queryEscape cfg.clientSecret,
              contentType := "application/x-www-form-urlencoded",
              body := "refresh_token=" ++ identityToken }
          match env.doRequest request with
          | .error _ =>
            { base with revocationRequest := some request,
                        errorsLogged := [revocationTransportError] }
          | .ok statusCode =>
            let logs := if statusCode = 204 then [] else [revocationBadStatusError]
            if redirectParam ≠ "" then
              { base with status := redirectStatus, redirect := some redirectParam,
                          revocationRequest := some request, errorsLogged := logs }
            else
              { base with revocationRequest := some request, errorsLogged := logs }

/-! ## GET /oauth/expired -/

/-- handlers.go expirationHandler: 401 when no identity can be extracted
from the request, 401 when the user's access token is expired, 200
otherwise. -/
def expirationHandler (getIdentity : Except String UserContext) : Nat :=
  match getIdentity with
  | .error _ => 401
  | .ok user => if user.expired then 401 else 200

/-! ## The same-origin restriction the spec demands of the redirect target

This definition follows the spec's words, not the source (the source has no
such check): the spec requires the decoded state target to be "restricted
to same-origin targets" / "restrict the decoded target to same-origin
paths". A target stays within the proxy's own origin exactly when it is a
relative path: it starts with "/" and is not a scheme-relative "//host"
URL. An absolute URL like "http://evil.com" is not a same-origin target. -/
def isSameOriginTarget (s : String) : Bool :=
  match s.data with
  | '/' :: '/' :: _ => false
  | '/' :: _ => true
  | _ => false

/-! ## Shared concrete sample inputs -/

/-- A configuration with token verification on and refresh tokens off. -/
def cfgSample : Config :=
  { skipTokenVerification := false
    enableRefreshTokens := false
    enableLoginHandler := true
    encryptionKey := "0123456789abcdef"
    clientID := "client-id"
    clientSecret := "top secret"
    revocationEndpoint := "https://idp/revoke"
    scopes := ["openid"] }

/-- cfgSample with skip_token_verification switched on. -/
def cfgSkip : Config := { cfgSample with skipTokenVerification := true }

/-- A token response as a provider would return it. -/
def respSample : TokenResponse :=
  { accessToken := "access.jwt"
    idToken := "id.jwt"
    refreshToken := "refresh.jwt"
    expires := 3600
    scope := "openid" }

/-- A callback environment in which every collaborator call succeeds:
parseToken wraps the raw string and yields a fixed identity, verification
and encryption succeed, no store is used. -/
def envCallbackSample : CallbackEnv :=
  { getOAuthClient := .ok ()
    exchangeAuthenticationCode := fun _ => .ok respSample
    parseToken := fun s => .ok ({ raw := s }, { email := "user@example.com", expiresAt := 7200 * 1000000000 })
    verifyToken := fun _ => .ok ()
    encodeText := fun p _ => .ok ("enc:" ++ p)
    useStore := false
    storeRefreshToken := .ok ()
    getAccessCookieExpiration := fun _ _ => 3600 * 1000000000
    now := 0 }

/-- An authorization environment in which the client builds and no custom
sign-in page is configured. -/
def envAuthSample : AuthorizeEnv :=
  { getOAuthClient := .ok ()
    authCodeURL := fun s a => "https://idp/authorize?state=" ++ s ++ "&access_type=" ++ a
    hasCustomSignInPage := false }

/-! ## Claims -/

/-- C1: the claim says the callback handler never redirects outside the
proxy's own origin. The code contradicts it: on a callback whose state
parameter is the base64 encoding of "http://evil.com" (with every provider
interaction succeeding) the handler issues a 302 redirect whose target is
the cross-origin absolute URL "http://evil.com", which is not a same-origin
target. -/
theorem C1_callback_redirects_cross_origin :
    (oauthCallbackHandler cfgSample envCallbackSample
        { code := "abc", state := "aHR0cDovL2V2aWwuY29t" }).redirect
      = some "http://evil.com" ∧
    (oauthCallbackHandler cfgSample envCallbackSample
        { code := "abc", state := "aHR0cDovL2V2aWwuY29t" }).status = 302 ∧
    isSameOriginTarget "http://evil.com" = false := by
  refine ⟨?_, ?_, ?_⟩ <;> decide

/-- Helper: on the success path of the callback (verification on, a code
present, client built, exchange done, id token parsed and verified, and the
refresh-token encryption succeeding whenever that branch runs), the handler
redirects (302) to the decoded state target, the session token and identity
are the access token's when it parses and the id token's when it does not,
the access-parse warning is logged exactly in the latter case, and any
state-decode warnings are logged. -/
theorem callback_success_fields (cfg : Config) (env : CallbackEnv) (req : CallbackRequest)
    (resp : TokenResponse) (idToken : JWT) (idIdentity : Identity)
    (hskip : cfg.skipTokenVerification = false)
    (hcode : req.code ≠ "")
    (hclient : env.getOAuthClient = Except.ok ())
    (hex : env.exchangeAuthenticationCode req.code = Except.ok resp)
    (hid : env.parseToken resp.idToken = Except.ok (idToken, idIdentity))
    (hver : env.verifyToken idToken = Except.ok ())
    (henc : cfg.enableRefreshTokens = true → resp.refreshToken ≠ "" →
      ∃ enc, env.encodeText resp.refreshToken cfg.encryptionKey = Except.ok enc) :
    (oauthCallbackHandler cfg env req).status = redirectStatus ∧
    (oauthCallbackHandler cfg env req).redirect = some (decodeState req.state).1 ∧
    (oauthCallbackHandler cfg env req).sessionToken =
      some (match env.parseToken resp.accessToken with
            | .error _ => idToken
            | .ok (a, _) => a) ∧
    (oauthCallbackHandler cfg env req).sessionIdentity =
      some (match env.parseToken resp.accessToken with
            | .error _ => idIdentity
            | .ok (_, i) => i) ∧
    (∀ e, env.parseToken resp.accessToken = Except.error e →
      accessParseWarning ∈ (oauthCallbackHandler cfg env req).warnings) ∧
    (∀ m, m ∈ (decodeState req.state).2 → m ∈ (oauthCallbackHandler cfg env req).warnings) := by
  rcases hstate : decodeState req.state with ⟨target, stateWarns⟩
  unfold oauthCallbackHandler
  cases hrt : cfg.enableRefreshTokens with
  | false =>
    rcases hacc : env.parseToken resp.accessToken with e | ⟨a, i⟩ <;> simp_all
  | true =>
    by_cases hrf : resp.refreshToken = ""
    · rcases hacc : env.parseToken resp.accessToken with e | ⟨a, i⟩ <;> simp_all
    · obtain ⟨enc, hencok⟩ := henc hrt hrf
      rcases hacc : env.parseToken resp.accessToken with e | ⟨a, i⟩ <;>
        rcases hstoreb : env.useStore <;>
          rcases hsave : env.storeRefreshToken with es | u <;>
            rcases hrp : env.parseToken resp.refreshToken with er | ⟨rt2, rid⟩ <;>
              simp_all

/-- cfgSample with refresh tokens enabled. -/
def cfgRefresh : Config := { cfgSample with enableRefreshTokens := true }

/-- envCallbackSample, except that the access token fails to parse. -/
def envCallbackAccessFails : CallbackEnv :=
  { envCallbackSample with
    parseToken := fun s =>
      if s = "access.jwt" then .error "bad token"
      else .ok ({ raw := s }, { email := "user@example.com", expiresAt := 7200 * 1000000000 }) }

/-- envCallbackSample, except that the refresh token is opaque (fails to
parse as a JWT). -/
def envCallbackOpaqueRefresh : CallbackEnv :=
  { envCallbackSample with
    parseToken := fun s =>
      if s = "refresh.jwt" then .error "opaque"
      else .ok ({ raw := s }, { email := "user@example.com", expiresAt := 7200 * 1000000000 }) }

/-- C3: in the callback, once the id token has parsed and verified, a
failure to parse the access token does not fail the request — the warning
is logged, the flow completes with the redirect, and the id token and its
identity become the session's; when the access token parses, it and its
identity replace the id token's. -/
theorem C3_access_token_fallback (cfg : Config) (env : CallbackEnv) (req : CallbackRequest)
    (resp : TokenResponse) (idToken : JWT) (idIdentity : Identity)
    (hskip : cfg.skipTokenVerification = false)
    (hcode : req.code ≠ "")
    (hclient : env.getOAuthClient = Except.ok ())
    (hex : env.exchangeAuthenticationCode req.code = Except.ok resp)
    (hid : env.parseToken resp.idToken = Except.ok (idToken, idIdentity))
    (hver : env.verifyToken idToken = Except.ok ())
    (henc : cfg.enableRefreshTokens = true → resp.refreshToken ≠ "" →
      ∃ enc, env.encodeText resp.refreshToken cfg.encryptionKey = Except.ok enc) :
    (∀ e, env.parseToken resp.accessToken = Except.error e →
      (oauthCallbackHandler cfg env req).status = redirectStatus ∧
      accessParseWarning ∈ (oauthCallbackHandler cfg env req).warnings ∧
      (oauthCallbackHandler cfg env req).sessionToken = some idToken ∧
      (oauthCallbackHandler cfg env req).sessionIdentity = some idIdentity) ∧
    (∀ a i, env.parseToken resp.accessToken = Except.ok (a, i) →
      (oauthCallbackHandler cfg env req).sessionToken = some a ∧
      (oauthCallbackHandler cfg env req).sessionIdentity = some i) := by
  obtain ⟨hs, hr, hst, hsi, hw, hsw⟩ :=
    callback_success_fields cfg env req resp idToken idIdentity hskip hcode hclient hex hid hver henc
  constructor
  · intro e he
    exact ⟨hs, hw e he, by rw [hst, he], by rw [hsi, he]⟩
  · intro a i hok
    exact ⟨by rw [hst, hok], by rw [hsi, hok]⟩

/-- C3 (witness): the fallback claim at a concrete input where the access
token indeed fails to parse. -/
theorem C3_access_token_fallback_witness :
    (∀ e, envCallbackAccessFails.parseToken respSample.accessToken = Except.error e →
      (oauthCallbackHandler cfgSample envCallbackAccessFails { code := "abc", state := "" }).status = redirectStatus ∧
      accessParseWarning ∈ (oauthCallbackHandler cfgSample envCallbackAccessFails { code := "abc", state := "" }).warnings ∧
      (oauthCallbackHandler cfgSample envCallbackAccessFails { code := "abc", state := "" }).sessionToken = some { raw := "id.jwt" } ∧
      (oauthCallbackHandler cfgSample envCallbackAccessFails { code := "abc", state := "" }).sessionIdentity
        = some { email := "user@example.com", expiresAt := 7200 * 1000000000 }) ∧
    (∀ a i, envCallbackAccessFails.parseToken respSample.accessToken = Except.ok (a, i) →
      (oauthCallbackHandler cfgSample envCallbackAccessFails { code := "abc", state := "" }).sessionToken = some a ∧
      (oauthCallbackHandler cfgSample envCallbackAccessFails { code := "abc", state := "" }).sessionIdentity = some i) :=
  C3_access_token_fallback cfgSample envCallbackAccessFails { code := "abc", state := "" }
    respSample { raw := "id.jwt" } { email := "user@example.com", expiresAt := 7200 * 1000000000 }
    rfl (by decide) rfl rfl rfl rfl (by intro h; simp [cfgSample, cfgRefresh] at h)

/-- C4: in the callback with refresh tokens enabled, no store in use and a
refresh token returned (and its encryption succeeding): when the refresh
token does not parse as a JWT, the encrypted refresh cookie is dropped with
a TTL of exactly 240 hours; when it parses, the TTL is the parsed expiry
minus the current time. -/
theorem C4_refresh_cookie_ttl (cfg : Config) (env : CallbackEnv) (req : CallbackRequest)
    (resp : TokenResponse) (idToken : JWT) (idIdentity : Identity) (encrypted : String)
    (hskip : cfg.skipTokenVerification = false)
    (hcode : req.code ≠ "")
    (hclient : env.getOAuthClient = Except.ok ())
    (hex : env.exchangeAuthenticationCode req.code = Except.ok resp)
    (hid : env.parseToken resp.idToken = Except.ok (idToken, idIdentity))
    (hver : env.verifyToken idToken = Except.ok ())
    (hrt : cfg.enableRefreshTokens = true)
    (hrf : resp.refreshToken ≠ "")
    (hstore : env.useStore = false)
    (hencok : env.encodeText resp.refreshToken cfg.encryptionKey = Except.ok encrypted) :
    (∀ e, env.parseToken resp.refreshToken = Except.error e →
      (oauthCallbackHandler cfg env req).refreshCookie
        = some { value := encrypted, ttl := 240 * nsPerHour }) ∧
    (∀ t ident, env.parseToken resp.refreshToken = Except.ok (t, ident) →
      (oauthCallbackHandler cfg env req).refreshCookie
        = some { value := encrypted, ttl := ident.expiresAt - env.now }) := by
  rcases hstate : decodeState req.state with ⟨target, stateWarns⟩
  unfold oauthCallbackHandler
  constructor
  · intro e he
    rcases hacc : env.parseToken resp.accessToken with e2 | ⟨a, i⟩ <;> simp_all
  · intro t ident hok
    rcases hacc : env.parseToken resp.accessToken with e2 | ⟨a, i⟩ <;> simp_all

/-- C4 (witness): the TTL claim at a concrete input whose refresh token is
opaque. -/
theorem C4_refresh_cookie_ttl_witness :
    (∀ e, envCallbackOpaqueRefresh.parseToken respSample.refreshToken = Except.error e →
      (oauthCallbackHandler cfgRefresh envCallbackOpaqueRefresh { code := "abc", state := "" }).refreshCookie
        = some { value := "enc:refresh.jwt", ttl := 240 * nsPerHour }) ∧
    (∀ t ident, envCallbackOpaqueRefresh.parseToken respSample.refreshToken = Except.ok (t, ident) →
      (oauthCallbackHandler cfgRefresh envCallbackOpaqueRefresh { code := "abc", state := "" }).refreshCookie
        = some { value := "enc:refresh.jwt", ttl := ident.expiresAt - envCallbackOpaqueRefresh.now }) :=
  C4_refresh_cookie_ttl cfgRefresh envCallbackOpaqueRefresh { code := "abc", state := "" }
    respSample { raw := "id.jwt" } { email := "user@example.com", expiresAt := 7200 * 1000000000 }
    "enc:refresh.jwt" rfl (by decide) rfl rfl rfl rfl rfl (by decide) rfl rfl

/-- C8: in the callback success path, an absent state parameter leaves the
redirect target at "/"; a state parameter that is not valid base64 is
logged as a warning and the target stays "/" with the request still
completing (302); a state parameter that decodes makes the decoded bytes
the target. -/
theorem C8_state_decode (cfg : Config) (env : CallbackEnv) (req : CallbackRequest)
    (resp : TokenResponse) (idToken : JWT) (idIdentity : Identity)
    (hskip : cfg.skipTokenVerification = false)
    (hcode : req.code ≠ "")
    (hclient : env.getOAuthClient = Except.ok ())
    (hex : env.exchangeAuthenticationCode req.code = Except.ok resp)
    (hid : env.parseToken resp.idToken = Except.ok (idToken, idIdentity))
    (hver : env.verifyToken idToken = Except.ok ())
    (henc : cfg.enableRefreshTokens = true → resp.refreshToken ≠ "" →
      ∃ enc, env.encodeText resp.refreshToken cfg.encryptionKey = Except.ok enc) :
    (req.state = "" → (oauthCallbackHandler cfg env req).redirect = some "/") ∧
    (req.state ≠ "" → decodeBase64 req.state = none →
      (oauthCallbackHandler cfg env req).status = redirectStatus ∧
      (oauthCallbackHandler cfg env req).redirect = some "/" ∧
      stateDecodeWarning ∈ (oauthCallbackHandler cfg env req).warnings) ∧
    (∀ bs, req.state ≠ "" → decodeBase64 req.state = some bs →
      (oauthCallbackHandler cfg env req).redirect = some (stringOfBytes bs)) := by
  obtain ⟨hs, hr, -, -, -, hsw⟩ :=
    callback_success_fields cfg env req resp idToken idIdentity hskip hcode hclient hex hid hver henc
  refine ⟨?_, ?_, ?_⟩
  · intro h0
    rw [hr]
    simp [decodeState, h0]
  · intro hne hdec
    refine ⟨hs, ?_, ?_⟩
    · rw [hr]
      simp [decodeState, hne, hdec]
    · apply hsw
      simp [decodeState, hne, hdec]
  · intro bs hne hdec
    rw [hr]
    simp [decodeState, hne, hdec]

/-- C8 (witness): the state-decode claim at a concrete input whose state
parameter is not valid base64. -/
theorem C8_state_decode_witness :
    (("%%%" : String) = "" → (oauthCallbackHandler cfgSample envCallbackSample { code := "abc", state := "%%%" }).redirect = some "/") ∧
    (("%%%" : String) ≠ "" → decodeBase64 "%%%" = none →
      (oauthCallbackHandler cfgSample envCallbackSample { code := "abc", state := "%%%" }).status = redirectStatus ∧
      (oauthCallbackHandler cfgSample envCallbackSample { code := "abc", state := "%%%" }).redirect = some "/" ∧
      stateDecodeWarning ∈ (oauthCallbackHandler cfgSample envCallbackSample { code := "abc", state := "%%%" }).warnings) ∧
    (∀ bs, ("%%%" : String) ≠ "" → decodeBase64 "%%%" = some bs →
      (oauthCallbackHandler cfgSample envCallbackSample { code := "abc", state := "%%%" }).redirect
        = some (stringOfBytes bs)) :=
  C8_state_decode cfgSample envCallbackSample { code := "abc", state := "%%%" }
    respSample { raw := "id.jwt" } { email := "user@example.com", expiresAt := 7200 * 1000000000 }
    rfl (by decide) rfl rfl rfl rfl (by intro h; simp [cfgSample] at h)

/-- C2: GET /oauth/expired answers 200 exactly when an identity can be
extracted from the request and its access token is not expired, and 401 in
every other case (no extractable identity, or expired token). -/
theorem C2_expiration_status (g : Except String UserContext) :
    (expirationHandler g = 200 ↔ ∃ u, g = Except.ok u ∧ u.expired = false) ∧
    (expirationHandler g = 401 ↔ ¬ ∃ u, g = Except.ok u ∧ u.expired = false) := by
  cases g with
  | error e => simp [expirationHandler]
  | ok u =>
    cases h : u.expired <;> simp [expirationHandler, h]

/-- A user with a valid, unexpired session. -/
def userSample : UserContext :=
  { token := { raw := "jwt" }, email := "user@example.com", expired := false }

/-- A logout environment with a valid session, a refresh token in the
cookie, a configured end-session endpoint, and a provider that answers the
revocation POST with 204. -/
def envLogoutSample : LogoutEnv :=
  { getIdentity := .ok userSample
    useStore := false
    getStoreRefreshToken := .error "no store"
    getRefreshTokenFromCookie := .ok "cookievalue"
    decodeText := fun s => .ok ("dec:" ++ s)
    endSessionEndpoint := "https://idp/logout"
    oauthClient := .ok ()
    newRequestOk := true
    doRequest := fun _ => .ok 204 }

/-- envLogoutSample, except the revocation endpoint answers 500. -/
def envLogoutRevokeFails : LogoutEnv :=
  { envLogoutSample with doRequest := fun _ => .ok 500 }

/-- A login environment: the password grant succeeds for the password
"right" and is rejected with an invalid_grant error otherwise. -/
def envLoginSample : LoginEnv :=
  { oauthClient := .ok ()
    userCredsToken := fun _ p =>
      if p = "right" then .ok respSample
      else .error "invalid_grant: bad credentials"
    parseToken := fun s => .ok ({ raw := s }, { email := "alice@example.com", expiresAt := 7200 * 1000000000 })
    now := 0 }

/-- C5: on logout with a valid session and a configured revocation
endpoint, when the revocation POST fails — in transport, or with any
response status other than 204 — the failure is logged and swallowed: the
cookies are still cleared and the response status is still a non-error one
(200, or the 302 redirect). -/
theorem C5_revocation_failure_swallowed (cfg : Config) (env : LogoutEnv)
    (redirectParam : String) (user : UserContext)
    (hid : env.getIdentity = Except.ok user)
    (hrev : defaultTo cfg.revocationEndpoint env.endSessionEndpoint ≠ "")
    (hclient : env.oauthClient = Except.ok ())
    (hreq : env.newRequestOk = true)
    (hfail : (∃ e, ∀ rq, env.doRequest rq = Except.error e) ∨
             (∃ s, s ≠ 204 ∧ ∀ rq, env.doRequest rq = Except.ok s)) :
    (logoutHandler cfg env redirectParam).cookiesCleared = true ∧
    (logoutHandler cfg env redirectParam).errorsLogged ≠ [] ∧
    ((logoutHandler cfg env redirectParam).status = 200 ∨
     (logoutHandler cfg env redirectParam).status = redirectStatus) := by
  unfold logoutHandler
  rcases hrr : retrieveRefreshToken env with er | rt <;>
    rcases hfail with ⟨e, hA⟩ | ⟨s, hs, hB⟩ <;>
      by_cases hred : redirectParam = "" <;>
        simp_all

/-- C5 (witness): the swallowed-failure claim at a concrete input where
the revocation endpoint answers 500. -/
theorem C5_revocation_failure_swallowed_witness :
    (logoutHandler cfgSample envLogoutRevokeFails "/bye").cookiesCleared = true ∧
    (logoutHandler cfgSample envLogoutRevokeFails "/bye").errorsLogged ≠ [] ∧
    ((logoutHandler cfgSample envLogoutRevokeFails "/bye").status = 200 ∨
     (logoutHandler cfgSample envLogoutRevokeFails "/bye").status = redirectStatus) :=
  C5_revocation_failure_swallowed cfgSample envLogoutRevokeFails "/bye" userSample
    rfl (by decide) rfl rfl (Or.inr ⟨500, by decide, fun _ => rfl⟩)

/-- C6: on logout with a valid session and a configured revocation (or
end-session) endpoint, when the POST goes through: the cookies are cleared,
the revocation POST goes to that endpoint carrying the query-escaped client
id and secret as HTTP Basic credentials and the token in the form body, and
the response is a 302 redirect to the redirect query parameter when one is
given and a 200 otherwise. -/
theorem C6_logout_flow (cfg : Config) (env : LogoutEnv) (redirectParam : String)
    (user : UserContext) (s : Nat)
    (hid : env.getIdentity = Except.ok user)
    (hrev : defaultTo cfg.revocationEndpoint env.endSessionEndpoint ≠ "")
    (hclient : env.oauthClient = Except.ok ())
    (hreq : env.newRequestOk = true)
    (hdo : ∀ rq, env.doRequest rq = Except.ok s) :
    (logoutHandler cfg env redirectParam).cookiesCleared = true ∧
    (∃ rq, (logoutHandler cfg env redirectParam).revocationRequest = some rq ∧
      rq.url = defaultTo cfg.revocationEndpoint env.endSessionEndpoint ∧
      rq.basicUser = queryEscape cfg.clientID ∧
      rq.basicPass = queryEscape cfg.clientSecret) ∧
    (redirectParam ≠ "" →
      (logoutHandler cfg env redirectParam).status = redirectStatus ∧
      (logoutHandler cfg env redirectParam).redirect = some redirectParam) ∧
    (redirectParam = "" →
      (logoutHandler cfg env redirectParam).status = 200 ∧
      (logoutHandler cfg env redirectParam).redirect = none) := by
  unfold logoutHandler
  rcases hrr : retrieveRefreshToken env with er | rt <;>
    by_cases hred : redirectParam = "" <;>
      by_cases h204 : s = 204 <;>
        simp_all

/-- C6 (witness): the logout-flow claim at a concrete input with a
redirect parameter. -/
theorem C6_logout_flow_witness :
    (logoutHandler cfgSample envLogoutSample "/bye").cookiesCleared = true ∧
    (∃ rq, (logoutHandler cfgSample envLogoutSample "/bye").revocationRequest = some rq ∧
      rq.url = defaultTo cfgSample.revocationEndpoint envLogoutSample.endSessionEndpoint ∧
      rq.basicUser = queryEscape cfgSample.clientID ∧
      rq.basicPass = queryEscape cfgSample.clientSecret) ∧
    (("/bye" : String) ≠ "" →
      (logoutHandler cfgSample envLogoutSample "/bye").status = redirectStatus ∧
      (logoutHandler cfgSample envLogoutSample "/bye").redirect = some "/bye") ∧
    (("/bye" : String) = "" →
      (logoutHandler cfgSample envLogoutSample "/bye").status = 200 ∧
      (logoutHandler cfgSample envLogoutSample "/bye").redirect = none) :=
  C6_logout_flow cfgSample envLogoutSample "/bye" userSample 204
    rfl (by decide) rfl rfl (fun _ => rfl)

/-- C7: when the login handler is enabled, both credentials are supplied
and the oauth client builds: an invalid-grant rejection from the provider
yields 401, and an accepted grant whose access token parses yields 200 with
the full token pair as the JSON body and the access-token cookie set in the
same response. -/
theorem C7_login_handler (cfg : Config) (env : LoginEnv) (req : LoginRequest)
    (hen : cfg.enableLoginHandler = true)
    (hu : req.username ≠ "")
    (hp : req.password ≠ "")
    (hclient : env.oauthClient = Except.ok ()) :
    (∀ e, env.userCredsToken req.username req.password = Except.error e →
      errorInvalidGrant.isPrefixOf e = true →
      loginHandler cfg env req = { status := 401 }) ∧
    (∀ tok a i, env.userCredsToken req.username req.password = Except.ok tok →
      env.parseToken tok.accessToken = Except.ok (a, i) →
      loginHandler cfg env req =
        { status := 200, jsonBody := some tok,
          accessCookie := some { value := tok.accessToken,
                                 ttl := i.expiresAt - env.now } }) := by
  unfold loginHandler
  constructor
  · intro e he hpre
    simp [hen, hu, hp, hclient, he, hpre]
  · intro tok a i hok hparse
    simp [hen, hu, hp, hclient, hok, hparse]

/-- C7 (witness): the login claim at a concrete input where the password
"wrong" draws an invalid_grant rejection and "right" is accepted. -/
theorem C7_login_handler_witness :
    (∀ e, envLoginSample.userCredsToken "alice" "wrong" = Except.error e →
      errorInvalidGrant.isPrefixOf e = true →
      loginHandler cfgSample envLoginSample { username := "alice", password := "wrong" }
        = { status := 401 }) ∧
    (∀ tok a i, envLoginSample.userCredsToken "alice" "wrong" = Except.ok tok →
      envLoginSample.parseToken tok.accessToken = Except.ok (a, i) →
      loginHandler cfgSample envLoginSample { username := "alice", password := "wrong" }
        = { status := 200, jsonBody := some tok,
            accessCookie := some { value := tok.accessToken,
                                   ttl := i.expiresAt - envLoginSample.now } }) :=
  C7_login_handler cfgSample envLoginSample { username := "alice", password := "wrong" }
    rfl (by decide) (by decide) rfl

/-- C9 (counterexample): the claim says every callback request with an
empty code parameter is answered 400, but with skip_token_verification set
the handler answers 406 Not Acceptable before the code is ever examined. -/
theorem C9_empty_code_not_always_400 :
    (oauthCallbackHandler cfgSkip envCallbackSample { code := "", state := "" }).status = 406 := by
  decide

/-- C9 (amended): when skip_token_verification is not set, every callback
request whose code query parameter is absent or empty is answered 400 Bad
Request, with no code exchange, no cookies and no redirect. -/
theorem C9_empty_code_bad_request (cfg : Config) (env : CallbackEnv)
    (req : CallbackRequest) (hskip : cfg.skipTokenVerification = false)
    (hcode : req.code = "") :
    oauthCallbackHandler cfg env req = { status := 400 } := by
  unfold oauthCallbackHandler
  simp [hskip, hcode]

/-- C9 (witness): the amended claim at a concrete input. -/
theorem C9_empty_code_bad_request_witness :
    oauthCallbackHandler cfgSample envCallbackSample { code := "", state := "" }
      = { status := 400 } :=
  C9_empty_code_bad_request cfgSample envCallbackSample { code := "", state := "" } rfl rfl

/-- C10: with skip_token_verification set, both GET /oauth/authorize and
GET /oauth/callback are rejected with 406 Not Acceptable immediately: no
OAuth client is constructed, no redirect is issued, no exchange happens and
no cookie is set (the 406 result record carries all-default effect fields). -/
theorem C10_skip_verification_rejects (cfg : Config) (aenv : AuthorizeEnv)
    (cenv : CallbackEnv) (stateParam : String) (req : CallbackRequest)
    (hskip : cfg.skipTokenVerification = true) :
    oauthAuthorizationHandler cfg aenv stateParam
      = { status := 406, redirect := none, clientConstructed := false } ∧
    oauthCallbackHandler cfg cenv req = { status := 406 } := by
  unfold oauthAuthorizationHandler oauthCallbackHandler
  simp [hskip]

/-- C10 (witness): the claim at a concrete input. -/
theorem C10_skip_verification_rejects_witness :
    oauthAuthorizationHandler cfgSkip envAuthSample "s"
      = { status := 406, redirect := none, clientConstructed := false } ∧
    oauthCallbackHandler cfgSkip envCallbackSample { code := "abc", state := "" }
      = { status := 406 } :=
  C10_skip_verification_rejects cfgSkip envAuthSample envCallbackSample "s"
    { code := "abc", state := "" } rfl

end KeycloakProxy
